import Mathlib

/-
Verification development for the SniperBot token risk-scoring and
simulated-trade-lifecycle engine.

Shallow embedding conventions:
* `rust_decimal::Decimal` values are embedded as exact rationals (`ℚ`);
  every arithmetic operation the embedded code performs on them
  (addition, subtraction, multiplication, comparison) is exact in
  `Decimal`, so `ℚ` is faithful there.  `Decimal` *division* panics on a
  zero divisor; that is embedded by `ratDiv?`, which returns `none`
  exactly on a zero divisor, and the functions that perform divisions
  return `Option` results whose `none` models the panic.
* Timestamps and durations are embedded at second granularity as `Int`;
  `chrono`'s `num_hours`/`num_days` truncate toward zero, embedded by
  `Int.tdiv`.
* `Vec<String>` flag accumulators passed by `&mut` are embedded by
  passing the flag list in and returning the extended list.
* Rust `str::contains` is embedded by `strContains` below.
* Display formatting of `Decimal` values inside flag / reason strings is
  abstracted by `reprD` (the exact digits rendered are never inspected by
  any property; only the fixed substrings of the messages are).
-/

namespace SniperBot

/-- Modelled from the spec: `models.rs` is not present under `src/`; the
field shapes of `TokenMetrics` are taken from §3 of the specification
("fields are all optional") and from their uses in
`analyzers/token_analyzer.rs`. -/
structure TokenMetrics where
  price_usd : Option ℚ
  liquidity_usd : Option ℚ
  volume_24h_usd : Option ℚ
  holder_count : Option Nat
  top_10_holders_percentage : Option ℚ
  is_honeypot : Option Bool
  is_mintable : Option Bool
  has_proxy : Option Bool
  contract_verified : Option Bool
deriving DecidableEq

/-- Modelled from the spec: risk classification enum (`models.rs` absent). -/
inductive RiskLevel where
  | Low | Medium | High | Extreme
deriving DecidableEq

/-- Modelled from the spec: recommendation enum (`models.rs` absent). -/
inductive Recommendation where
  | Buy | Watch | Avoid
deriving DecidableEq

/-- Modelled from the spec: signal type enum (`models.rs` absent). -/
inductive SignalType where
  | Buy | Sell | Warning | WhaleMovement
deriving DecidableEq

/-- Modelled from the spec: the analysis result record (`models.rs` absent);
field shapes from §3 `ScoreResult` and the construction site in
`token_analyzer.rs`. -/
structure AnalysisResult where
  token_address : String
  score : ℚ
  is_safe : Bool
  risk_level : RiskLevel
  flags : List String
  potential_multiplier : Option ℚ
  recommendation : Recommendation
deriving DecidableEq

/-- Modelled from the spec: trading signal record (`models.rs` absent); the
`id` and `created_at` bookkeeping fields are omitted (never read by the
core logic). -/
structure TradingSignal where
  token_address : String
  signal_type : SignalType
  confidence : ℚ
  reason : String
  target_multiplier : Option ℚ
  is_sent : Bool
deriving DecidableEq

/-- Configuration thresholds held by `TokenAnalyzer` (struct at the top of
`token_analyzer.rs`).  `max_top_holder_pct` is carried but, as in the
source, never read by the analysis functions. -/
structure TokenAnalyzer where
  min_liquidity : ℚ
  max_top_holder_pct : ℚ
  min_holders : Nat
deriving DecidableEq

/-- Embeds `rust_decimal` division, which panics on a zero divisor:
`none` models the panic. -/
def ratDiv? (a b : ℚ) : Option ℚ :=
  if b = 0 then none else some (a / b)

/-- Character-list test: does the haystack start with the needle? -/
def charsHaveStart : List Char → List Char → Bool
  | [], _ => true
  | _ :: _, [] => false
  | a :: as, b :: bs => a == b && charsHaveStart as bs

/-- Character-list substring test (needle occurs somewhere in haystack). -/
def charsHaveSub (needle : List Char) : List Char → Bool
  | [] => charsHaveStart needle []
  | b :: bs => charsHaveStart needle (b :: bs) || charsHaveSub needle bs

/-- Embeds Rust `str::contains` (haystack first, as in `f.contains("…")`). -/
def strContains (hay needle : String) : Bool :=
  charsHaveSub needle.data hay.data

/-- Abstract rendering of a `Decimal` value into message text.  No property
inspects the rendered digits, only the fixed message substrings. -/
def reprD (q : ℚ) : String :=
  if q.den = 1 then toString q.num else toString q.num ++ "/" ++ toString q.den

/-- Flag string pushed on low liquidity (token_analyzer.rs line 108). -/
def low_liquidity_flag : String := "🚨 LOW_LIQUIDITY: May be hard to sell"

/-- Flag string pushed on unknown liquidity (token_analyzer.rs line 114). -/
def unknown_liquidity_flag : String := "❓ UNKNOWN_LIQUIDITY: Could not determine liquidity"

/-- Flag string pushed on too few holders (token_analyzer.rs line 134). -/
def few_holders_flag (holders : Nat) : String :=
  "👥 FEW_HOLDERS: Only " ++ toString holders ++ " holders (risky)"

/-- Flag string pushed on whale domination (token_analyzer.rs line 148). -/
def whale_dominated_flag (pct : ℚ) : String :=
  "🐋 WHALE_DOMINATED: Top 10 holders own " ++ reprD pct ++ "%"

/-- Flag string pushed on low volume (token_analyzer.rs line 174). -/
def low_volume_flag : String := "📈 LOW_VOLUME: Very little trading activity"

/-- Flag string pushed on an unverified contract (token_analyzer.rs line 205). -/
def unverified_contract_flag : String := "🔒 UNVERIFIED_CONTRACT: Cannot audit contract code"

/-- Flag string pushed on a detected honeypot (token_analyzer.rs line 213). -/
def honeypot_flag : String := "🍯 HONEYPOT_DETECTED: Cannot sell tokens!"

/-- Flag string pushed on a mintable token (token_analyzer.rs line 223). -/
def mintable_flag : String := "🏭 MINTABLE_TOKEN: Supply can be increased"

/-- Flag string pushed on a proxy contract (token_analyzer.rs line 233). -/
def proxy_flag : String := "🔄 PROXY_CONTRACT: Contract can be upgraded/changed"

/-- Flag string pushed on a very new token (token_analyzer.rs line 252). -/
def very_new_flag : String := "🆕 VERY_NEW: Less than 1 hour old"

/-- Flag string of the canned insufficient-data result (token_analyzer.rs
line 367). -/
def insufficient_data_flag : String := "❓ INSUFFICIENT_DATA: Cannot analyze properly"

/-- Liquidity factor (`analyze_liquidity`, token_analyzer.rs lines 95-118). -/
def analyze_liquidity (self : TokenAnalyzer) (m : TokenMetrics)
    (fl : List String) : ℚ × List String :=
  match m.liquidity_usd with
  | some liquidity =>
      if 100000 ≤ liquidity then (25, fl)
      else if 50000 ≤ liquidity then (20, fl)
      else if 20000 ≤ liquidity then (15, fl)
      else if self.min_liquidity ≤ liquidity then (10, fl)
      else (-10, fl ++ [low_liquidity_flag])
  | none => (0, fl ++ [unknown_liquidity_flag])

/-- Holder-count sub-check of `analyze_holder_distribution`
(token_analyzer.rs lines 123-137). -/
def holder_count_check (self : TokenAnalyzer) (m : TokenMetrics)
    (fl : List String) : ℚ × List String :=
  match m.holder_count with
  | some holders =>
      if 10000 ≤ holders then (10, fl)
      else if 5000 ≤ holders then (8, fl)
      else if 1000 ≤ holders then (6, fl)
      else if self.min_holders ≤ holders then (4, fl)
      else (-5, fl ++ [few_holders_flag holders])
  | none => (0, fl)

/-- Top-10-holder-concentration sub-check of `analyze_holder_distribution`
(token_analyzer.rs lines 139-151). -/
def top_holders_check (m : TokenMetrics) (fl : List String) : ℚ × List String :=
  match m.top_10_holders_percentage with
  | some pct =>
      if pct ≤ 20 then (10, fl)
      else if pct ≤ 40 then (7, fl)
      else if pct ≤ 60 then (4, fl)
      else (-10, fl ++ [whale_dominated_flag pct])
  | none => (0, fl)

/-- Holder-distribution factor: the two sub-checks in source order, scores
summed (`analyze_holder_distribution`, token_analyzer.rs lines 120-155). -/
def analyze_holder_distribution (self : TokenAnalyzer) (m : TokenMetrics)
    (fl : List String) : ℚ × List String :=
  let p1 := holder_count_check self m fl
  let p2 := top_holders_check m p1.2
  (p1.1 + p2.1, p2.2)

/-- Volume factor (`analyze_volume`, token_analyzer.rs lines 157-183).
`volume_24h / liquidity` is a `Decimal` division with no zero guard:
`none` models the division-by-zero panic. -/
def analyze_volume (m : TokenMetrics) (fl : List String) :
    Option (ℚ × List String) :=
  match m.volume_24h_usd with
  | some volume_24h =>
      match m.liquidity_usd with
      | some liquidity =>
          match ratDiv? volume_24h liquidity with
          | none => none
          | some vr =>
              some (if 2 ≤ vr then (15, fl)
                else if 1 ≤ vr then (12, fl)
                else if 1/2 ≤ vr then (8, fl)
                else if 1/10 ≤ vr then (5, fl)
                else (-5, fl ++ [low_volume_flag]))
      | none => some (0, fl)
  | none => some (0, fl)

/-- Price-stability factor: placeholder neutral score
(`analyze_price_stability`, token_analyzer.rs lines 185-195). -/
def analyze_price_stability : ℚ := 7

/-- Verified-contract sub-check of `analyze_contract_security`
(token_analyzer.rs lines 200-208). -/
def sec_verified (m : TokenMetrics) (fl : List String) : ℚ × List String :=
  match m.contract_verified with
  | some verified =>
      if verified then (8, fl)
      else (-10, fl ++ [unverified_contract_flag])
  | none => (0, fl)

/-- Honeypot sub-check of `analyze_contract_security`
(token_analyzer.rs lines 210-218). -/
def sec_honeypot (m : TokenMetrics) (fl : List String) : ℚ × List String :=
  match m.is_honeypot with
  | some is_honeypot =>
      if is_honeypot then (-50, fl ++ [honeypot_flag])
      else (5, fl)
  | none => (0, fl)

/-- Mintable sub-check of `analyze_contract_security`
(token_analyzer.rs lines 220-228). -/
def sec_mintable (m : TokenMetrics) (fl : List String) : ℚ × List String :=
  match m.is_mintable with
  | some is_mintable =>
      if is_mintable then (-5, fl ++ [mintable_flag])
      else (2, fl)
  | none => (0, fl)

/-- Proxy sub-check of `analyze_contract_security`
(token_analyzer.rs lines 230-238). -/
def sec_proxy (m : TokenMetrics) (fl : List String) : ℚ × List String :=
  match m.has_proxy with
  | some has_proxy =>
      if has_proxy then (-3, fl ++ [proxy_flag])
      else (2, fl)
  | none => (0, fl)

/-- Contract-security factor: the four sub-checks in source order, scores
summed (`analyze_contract_security`, token_analyzer.rs lines 197-242). -/
def analyze_contract_security (m : TokenMetrics) (fl : List String) :
    ℚ × List String :=
  let p1 := sec_verified m fl
  let p2 := sec_honeypot m p1.2
  let p3 := sec_mintable m p2.2
  let p4 := sec_proxy m p3.2
  (p1.1 + p2.1 + p3.1 + p4.1, p4.2)

/-- Market-timing factor (`analyze_market_timing`, token_analyzer.rs lines
244-263).  The source computes `age = Utc::now() - token.first_seen`
inside the function; the clock reading is the `now` argument here, and
`age` is in seconds with `num_hours`/`num_days` as truncating division. -/
def analyze_market_timing (now first_seen : Int) (fl : List String) :
    ℚ × List String :=
  let age := now - first_seen
  if age.tdiv 3600 < 1 then (8, fl ++ [very_new_flag])
  else if age.tdiv 3600 < 24 then (10, fl)
  else if age.tdiv 86400 < 7 then (6, fl)
  else (3, fl)

/-- Risk-level derivation (`calculate_risk_level`, token_analyzer.rs lines
265-279). -/
def calculate_risk_level (score : ℚ) (flags : List String) : RiskLevel :=
  let critical := flags.any fun f =>
    strContains f "HONEYPOT" || strContains f "WHALE_DOMINATED" ||
      strContains f "LOW_LIQUIDITY"
  if critical = true ∨ score < 30 then .Extreme
  else if score < 50 then .High
  else if score < 70 then .Medium
  else .Low

/-- Safety-critical flag set (`has_critical_flags`, token_analyzer.rs lines
281-287). -/
def has_critical_flags (flags : List String) : Bool :=
  flags.any fun f =>
    strContains f "HONEYPOT" || strContains f "UNVERIFIED_CONTRACT" ||
      strContains f "LOW_LIQUIDITY"

/-- Potential-multiplier derivation (`calculate_potential_multiplier`,
token_analyzer.rs lines 289-322). -/
def calculate_potential_multiplier (score : ℚ) (m : TokenMetrics)
    (flags : List String) : Option ℚ :=
  if score < 60 then none
  else
    let base : ℚ :=
      if 90 ≤ score then 100
      else if 85 ≤ score then 50
      else if 80 ≤ score then 20
      else if 75 ≤ score then 10
      else if 70 ≤ score then 5
      else 2
    let base :=
      match m.liquidity_usd with
      | some liquidity => if liquidity < 50000 then base * (3/2) else base
      | none => base
    let base :=
      if flags.any (fun f => strContains f "VERY_NEW") then base * 2 else base
    some base

/-- Recommendation derivation (`make_recommendation`, token_analyzer.rs
lines 324-332). -/
def make_recommendation (score : ℚ) (risk_level : RiskLevel)
    (is_safe : Bool) : Recommendation :=
  if is_safe = false ∨ risk_level = .Extreme then .Avoid
  else if 75 ≤ score ∧ (risk_level = .Low ∨ risk_level = .Medium) then .Buy
  else .Watch

/-- Canned insufficient-data result (`create_insufficient_data_result`,
token_analyzer.rs lines 361-371). -/
def create_insufficient_data_result (token_address : String) : AnalysisResult :=
  { token_address := token_address
    score := 20
    is_safe := false
    risk_level := .High
    flags := [insufficient_data_flag]
    potential_multiplier := none
    recommendation := .Avoid }

/-- Tail of `analyze_token` after the volume factor succeeded
(token_analyzer.rs lines 53-82): `p3` carries the volume factor's score
and the flag list accumulated through the first three factors; the
remaining factors and the derived fields follow in source order. -/
def assemble_result (self : TokenAnalyzer) (m : TokenMetrics)
    (addr : String) (now first_seen : Int) (p3 : ℚ × List String) :
    AnalysisResult :=
  let p1 := analyze_liquidity self m []
  let p2 := analyze_holder_distribution self m p1.2
  let p5 := analyze_contract_security m p3.2
  let p6 := analyze_market_timing now first_seen p5.2
  let score := 50 + p1.1 + p2.1 + p3.1 + analyze_price_stability + p5.1 + p6.1
  let risk := calculate_risk_level score p6.2
  let safe := decide (70 ≤ score) && !has_critical_flags p6.2
  { token_address := addr
    score := score
    is_safe := safe
    risk_level := risk
    flags := p6.2
    potential_multiplier := calculate_potential_multiplier score m p6.2
    recommendation := make_recommendation score risk safe }

/-- Body of `analyze_token` once a metrics snapshot is available
(token_analyzer.rs lines 39-92): base 50, the six factors in order, then
the derived fields.  `none` models a panic (division by zero in the
volume factor). -/
def analyzeWithMetrics (self : TokenAnalyzer) (m : TokenMetrics)
    (addr : String) (now first_seen : Int) : Option AnalysisResult :=
  (analyze_volume m
      (analyze_holder_distribution self m (analyze_liquidity self m []).2).2).map
    (assemble_result self m addr now first_seen)

/-- Top of `analyze_token` (token_analyzer.rs lines 27-37): a missing
metrics snapshot short-circuits to the canned insufficient-data result. -/
def analyzeToken (self : TokenAnalyzer) (metrics? : Option TokenMetrics)
    (addr : String) (now first_seen : Int) : Option AnalysisResult :=
  match metrics? with
  | none => some (create_insufficient_data_result addr)
  | some m => analyzeWithMetrics self m addr now first_seen

/-- Debug rendering of a risk level, as used in the signal reason string. -/
def risk_repr : RiskLevel → String
  | .Low => "Low"
  | .Medium => "Medium"
  | .High => "High"
  | .Extreme => "Extreme"

/-- Signal construction (`generate_trading_signal`, token_analyzer.rs lines
334-352): always a Buy signal, confidence `score / 100`,
`target_multiplier` copied from the analysis result, with the
`unwrap_or(2)` fallback in the reason text. -/
def generate_trading_signal (symbol name0 : String) (r : AnalysisResult) :
    TradingSignal :=
  { token_address := r.token_address
    signal_type := .Buy
    confidence := r.score / 100
    reason := "🚀 " ++ symbol ++ " (" ++ name0 ++ ") - Score: " ++ reprD r.score ++
      "/100, Risk: " ++ risk_repr r.risk_level ++ "\n📊 Flags: " ++
      (if r.flags.isEmpty then "None" else String.intercalate ", " r.flags) ++
      "\n🎯 Target: " ++ reprD (r.potential_multiplier.getD 2) ++ "x"
    target_multiplier := r.potential_multiplier
    is_sent := false }

/-- Signal-emission path of `analyze_token` (token_analyzer.rs lines 87-90):
a signal is generated iff the analysis succeeded, `is_safe` holds and
`score ≥ 75`. -/
def emit_signal (self : TokenAnalyzer) (metrics? : Option TokenMetrics)
    (addr symbol name0 : String) (now first_seen : Int) :
    Option TradingSignal :=
  match analyzeToken self metrics? addr now first_seen with
  | none => none
  | some r =>
      if r.is_safe = true ∧ 75 ≤ r.score then
        some (generate_trading_signal symbol name0 r)
      else none

/-- Arguments a trade closure passes to `close_trade(id, exitPrice,
profitLoss, multiplier, reason)` (database interface). -/
structure CloseArgs where
  exit_price : ℚ
  profit_loss : ℚ
  multiplier : ℚ
  exit_reason : String
deriving DecidableEq

/-- Target loop of `check_profit_targets` (profit_taking.rs lines 32-51):
close at the first target in list order that the precomputed multiplier
meets or exceeds, then stop.  When called, `entry ≠ 0` is already known
(the multiplier division succeeded), so the profit division is exact. -/
def first_target_close (mult entry current investment : ℚ) :
    List ℚ → Option CloseArgs
  | [] => none
  | target :: rest =>
      if target ≤ mult then
        some { exit_price := current
               profit_loss := (current - entry) * investment / entry
               multiplier := mult
               exit_reason := reprD target ++ "x target reached" }
      else first_target_close mult entry current investment rest

/-- One trade of the profit-taking sweep (`check_profit_targets`,
profit_taking.rs lines 23-57).  Outer `none` models the
division-by-zero panic of `current_price / entry_price`; `some none`
means the trade stays open (no metrics, no price, or no target met). -/
def check_profit_targets_trade (targets : List ℚ)
    (metrics? : Option TokenMetrics) (entry_price investment_usd : ℚ) :
    Option (Option CloseArgs) :=
  match metrics? with
  | none => some none
  | some m =>
      match m.price_usd with
      | none => some none
      | some current_price =>
          match ratDiv? current_price entry_price with
          | none => none
          | some multiplier =>
              some (first_target_close multiplier entry_price current_price
                investment_usd targets)

/-- One trade of the risk-management sweep (`check_risk_limits`,
risk_management.rs lines 27-70).  The source reads the latest metrics
twice (once for the stop-loss check, once in the closing block); both
reads are modelled as the same `metrics?` snapshot.  `stop_loss_pct` is
a fraction, `max_hold_secs` embeds `Duration::hours(max_hold_hours)`.
Outer `none` models a division-by-zero panic (`entry_price = 0` with a
price available); `some none` means the trade stays open. -/
def check_risk_limits_trade (stop_loss_pct : ℚ) (max_hold_secs : Int)
    (now : Int) (metrics? : Option TokenMetrics)
    (entry_price : ℚ) (entry_time : Int) (investment_usd : ℚ) :
    Option (Option CloseArgs) :=
  let step1 : Option (Bool × String) :=
    match metrics? with
    | none => some (false, "")
    | some m =>
        match m.price_usd with
        | none => some (false, "")
        | some current_price =>
            match ratDiv? (entry_price - current_price) entry_price with
            | none => none
            | some loss_pct =>
                some (if stop_loss_pct ≤ loss_pct then
                    (true, "Stop loss triggered (" ++ reprD (loss_pct * 100) ++ "% loss)")
                  else (false, ""))
  match step1 with
  | none => none
  | some st =>
      let hold_duration := now - entry_time
      let st2 :=
        if max_hold_secs < hold_duration then
          (true, "Max hold time exceeded (" ++ toString (hold_duration.tdiv 3600) ++ " hours)")
        else st
      if st2.1 then
        match metrics? with
        | none => some none
        | some m =>
            match m.price_usd with
            | none => some none
            | some current_price =>
                match ratDiv? current_price entry_price with
                | none => none
                | some multiplier =>
                    some (some { exit_price := current_price
                                 profit_loss := (current_price - entry_price) * investment_usd / entry_price
                                 multiplier := multiplier
                                 exit_reason := st2.2 })
      else some none

/-- Age bucket underlying the market-timing factor: the same nested tests
as `analyze_market_timing`, reified as 0 = under one hour, 1 = under a
day, 2 = under a week, 3 = older. -/
def timing_bucket (age : Int) : Nat :=
  if age.tdiv 3600 < 1 then 0
  else if age.tdiv 3600 < 24 then 1
  else if age.tdiv 86400 < 7 then 2
  else 3

/-- Spec-side restatement of the multiplier derivation with the corrected
band boundaries, for comparison with `calculate_potential_multiplier`:
`none` below 60, stepped base 2 on [60,70), 5 on [70,75), 10 on [75,80),
20 on [80,85), 50 on [85,90), 100 at 90 and above, times 3/2 when
liquidity is present and under 50000, times 2 when a VERY_NEW flag is
present, in that order. -/
def multiplier_bands_spec (score : ℚ) (m : TokenMetrics)
    (flags : List String) : Option ℚ :=
  if score < 60 then none
  else
    let base : ℚ :=
      if 90 ≤ score then 100
      else if 85 ≤ score then 50
      else if 80 ≤ score then 20
      else if 75 ≤ score then 10
      else if 70 ≤ score then 5
      else 2
    let liq_adj : ℚ :=
      match m.liquidity_usd with
      | some liquidity => if liquidity < 50000 then 3/2 else 1
      | none => 1
    let new_adj : ℚ :=
      if flags.any (fun f => strContains f "VERY_NEW") then 2 else 1
    some (base * liq_adj * new_adj)

/-- A default configuration for concrete evaluations (the defaults of
`TokenAnalyzer::new`). -/
def cfg0 : TokenAnalyzer :=
  { min_liquidity := 10000, max_top_holder_pct := 30, min_holders := 50 }

/-- Snapshot realising an analysis score of 72: holders 5000 (+8), top-10
concentration 60% (+4), liquidity unknown, everything else absent. -/
def m72 : TokenMetrics :=
  { price_usd := none, liquidity_usd := none, volume_24h_usd := none
    holder_count := some 5000, top_10_holders_percentage := some 60
    is_honeypot := none, is_mintable := none, has_proxy := none
    contract_verified := none }

/-- Snapshot of the end-to-end scenario of §8 of the spec: liquidity
150000, volume 300000, holders 12000, top-10 15%, verified, not a
honeypot, not mintable, no proxy. -/
def m_big : TokenMetrics :=
  { price_usd := none, liquidity_usd := some 150000
    volume_24h_usd := some 300000, holder_count := some 12000
    top_10_holders_percentage := some 15, is_honeypot := some false
    is_mintable := some false, has_proxy := some false
    contract_verified := some true }

/-- Snapshot flagged as a honeypot, everything else unknown. -/
def m_hp : TokenMetrics :=
  { price_usd := none, liquidity_usd := none, volume_24h_usd := none
    holder_count := none, top_10_holders_percentage := none
    is_honeypot := some true, is_mintable := none, has_proxy := none
    contract_verified := none }

/-- Snapshot with a present 24h volume and a present but zero liquidity. -/
def m_liq0 : TokenMetrics :=
  { price_usd := none, liquidity_usd := some 0, volume_24h_usd := some 5
    holder_count := none, top_10_holders_percentage := none
    is_honeypot := none, is_mintable := none, has_proxy := none
    contract_verified := none }

/-- Snapshot whose only known field is a current price of 6. -/
def m_price6 : TokenMetrics :=
  { price_usd := some 6, liquidity_usd := none, volume_24h_usd := none
    holder_count := none, top_10_holders_percentage := none
    is_honeypot := none, is_mintable := none, has_proxy := none
    contract_verified := none }

/-! General lemmas about the embedded analyzer. -/

theorem assemble_result_flags (self : TokenAnalyzer) (m : TokenMetrics)
    (addr : String) (now first_seen : Int) (p3 : ℚ × List String) :
    (assemble_result self m addr now first_seen p3).flags =
      (analyze_market_timing now first_seen
        (analyze_contract_security m p3.2).2).2 := rfl

theorem assemble_result_score (self : TokenAnalyzer) (m : TokenMetrics)
    (addr : String) (now first_seen : Int) (p3 : ℚ × List String) :
    (assemble_result self m addr now first_seen p3).score =
      50 + (analyze_liquidity self m []).1 +
        (analyze_holder_distribution self m (analyze_liquidity self m []).2).1 +
        p3.1 + analyze_price_stability + (analyze_contract_security m p3.2).1 +
        (analyze_market_timing now first_seen
          (analyze_contract_security m p3.2).2).1 := rfl

theorem assemble_result_safe (self : TokenAnalyzer) (m : TokenMetrics)
    (addr : String) (now first_seen : Int) (p3 : ℚ × List String) :
    (assemble_result self m addr now first_seen p3).is_safe =
      (decide (70 ≤ (assemble_result self m addr now first_seen p3).score) &&
        !has_critical_flags (assemble_result self m addr now first_seen p3).flags) := rfl

theorem assemble_result_risk (self : TokenAnalyzer) (m : TokenMetrics)
    (addr : String) (now first_seen : Int) (p3 : ℚ × List String) :
    (assemble_result self m addr now first_seen p3).risk_level =
      calculate_risk_level (assemble_result self m addr now first_seen p3).score
        (assemble_result self m addr now first_seen p3).flags := rfl

theorem assemble_result_pm (self : TokenAnalyzer) (m : TokenMetrics)
    (addr : String) (now first_seen : Int) (p3 : ℚ × List String) :
    (assemble_result self m addr now first_seen p3).potential_multiplier =
      calculate_potential_multiplier
        (assemble_result self m addr now first_seen p3).score m
        (assemble_result self m addr now first_seen p3).flags := rfl

theorem assemble_result_rec (self : TokenAnalyzer) (m : TokenMetrics)
    (addr : String) (now first_seen : Int) (p3 : ℚ × List String) :
    (assemble_result self m addr now first_seen p3).recommendation =
      make_recommendation (assemble_result self m addr now first_seen p3).score
        (assemble_result self m addr now first_seen p3).risk_level
        (assemble_result self m addr now first_seen p3).is_safe := rfl

theorem analyzeWithMetrics_eq_some (self : TokenAnalyzer) (m : TokenMetrics)
    (addr : String) (now first_seen : Int) (r : AnalysisResult)
    (h : analyzeWithMetrics self m addr now first_seen = some r) :
    ∃ p3, analyze_volume m
        (analyze_holder_distribution self m (analyze_liquidity self m []).2).2 =
        some p3 ∧ r = assemble_result self m addr now first_seen p3 := by
  unfold analyzeWithMetrics at h
  rcases Option.map_eq_some'.mp h with ⟨p3, hp, hr⟩
  exact ⟨p3, hp, hr.symm⟩

/-! Claim theorems. -/

/-- C7: for every token that has no metrics snapshot, analysis returns
successfully with exactly the canned insufficient-data result: score 20,
risk level High, not safe, the single INSUFFICIENT_DATA flag,
recommendation Avoid, and no potential multiplier. -/
theorem C7_insufficient_data_result (self : TokenAnalyzer) (addr : String)
    (now first_seen : Int) :
    analyzeToken self none addr now first_seen =
      some { token_address := addr
             score := 20
             is_safe := false
             risk_level := .High
             flags := [insufficient_data_flag]
             potential_multiplier := none
             recommendation := .Avoid } := rfl

/-- C1 (amended): the potential multiplier is none below score 60, and
otherwise equals a stepped base — 2 on [60,70), 5 on [70,75), 10 on
[75,80), 20 on [80,85), 50 on [85,90), 100 at 90 and above — multiplied
by 3/2 when liquidity is present and below 50000, then by 2 when a
VERY_NEW flag is present, in that order.  (The claim's band labels are
one step too high: 2 belongs to [60,70), not to 70–74.) -/
theorem C1_multiplier_bands (score : ℚ) (m : TokenMetrics)
    (flags : List String) :
    calculate_potential_multiplier score m flags =
      multiplier_bands_spec score m flags := by
  unfold calculate_potential_multiplier multiplier_bands_spec
  rcases m.liquidity_usd with _ | l <;> split_ifs <;> simp

/-- C1 counterexample: a full analysis reaching score 72 (holders 5000,
top-10 concentration 60%, liquidity unknown, token a week old) carries
potential multiplier 5, with no liquidity adjustment and no VERY_NEW
flag — not the 2 the claim assigns to scores 70–74. -/
theorem C1_counterexample :
    (analyzeToken cfg0 (some m72) "T" 604800 0).map
        (fun r => (r.score, r.potential_multiplier)) = some (72, some 5) ∧
      m72.liquidity_usd = none ∧
      (analyzeToken cfg0 (some m72) "T" 604800 0).map
        (fun r => r.flags.any fun f => strContains f "VERY_NEW") = some false ∧
      some (5 : ℚ) ≠ some (2 : ℚ) := by
  have h1 : ¬ ((604800 : Int).tdiv 3600 < 1) := by decide
  have h2 : ¬ ((604800 : Int).tdiv 3600 < 24) := by decide
  have h3 : ¬ ((604800 : Int).tdiv 86400 < 7) := by decide
  have h4 : strContains unknown_liquidity_flag "VERY_NEW" = false := by decide
  refine ⟨?_, rfl, ?_, ?_⟩ <;>
    norm_num [analyzeToken, analyzeWithMetrics, assemble_result,
      analyze_liquidity, analyze_holder_distribution, holder_count_check,
      top_holders_check, analyze_volume, analyze_price_stability,
      analyze_contract_security, sec_verified, sec_honeypot, sec_mintable,
      sec_proxy, analyze_market_timing, calculate_potential_multiplier,
      m72, cfg0, h1, h2, h3, h4]

theorem mem_sec_mintable (m : TokenMetrics) (fl : List String) (x : String)
    (hx : x ∈ fl) : x ∈ (sec_mintable m fl).2 := by
  unfold sec_mintable
  rcases m.is_mintable with _ | b
  · exact hx
  · cases b <;> simp [hx]

theorem mem_sec_proxy (m : TokenMetrics) (fl : List String) (x : String)
    (hx : x ∈ fl) : x ∈ (sec_proxy m fl).2 := by
  unfold sec_proxy
  rcases m.has_proxy with _ | b
  · exact hx
  · cases b <;> simp [hx]

theorem honeypot_mem_sec_honeypot (m : TokenMetrics) (fl : List String)
    (h : m.is_honeypot = some true) : honeypot_flag ∈ (sec_honeypot m fl).2 := by
  unfold sec_honeypot
  rw [h]
  simp

theorem honeypot_mem_security (m : TokenMetrics) (fl : List String)
    (h : m.is_honeypot = some true) :
    honeypot_flag ∈ (analyze_contract_security m fl).2 :=
  mem_sec_proxy _ _ _ (mem_sec_mintable _ _ _ (honeypot_mem_sec_honeypot _ _ h))

theorem mem_timing (now first_seen : Int) (fl : List String) (x : String)
    (hx : x ∈ fl) : x ∈ (analyze_market_timing now first_seen fl).2 := by
  unfold analyze_market_timing
  dsimp only
  split_ifs <;> simp [hx]

/-- C2: for every token and metrics snapshot with isHoneypot true, a
completed analysis recommends Avoid, with risk level Extreme and
isSafe false, regardless of every other field and of the token's age. -/
theorem C2_honeypot_forces_avoid (self : TokenAnalyzer) (m : TokenMetrics)
    (addr : String) (now first_seen : Int) (r : AnalysisResult)
    (hhp : m.is_honeypot = some true)
    (hr : analyzeToken self (some m) addr now first_seen = some r) :
    r.recommendation = .Avoid ∧ r.risk_level = .Extreme ∧ r.is_safe = false := by
  obtain ⟨p3, hv, rfl⟩ := analyzeWithMetrics_eq_some self m addr now first_seen r hr
  have hmem : honeypot_flag ∈ (assemble_result self m addr now first_seen p3).flags := by
    rw [assemble_result_flags]
    exact mem_timing _ _ _ _ (honeypot_mem_security _ _ hhp)
  have hsafe : (assemble_result self m addr now first_seen p3).is_safe = false := by
    rw [assemble_result_safe]
    have hc : has_critical_flags (assemble_result self m addr now first_seen p3).flags = true := by
      unfold has_critical_flags
      exact List.any_eq_true.mpr ⟨honeypot_flag, hmem, by decide⟩
    simp [hc]
  have hrisk : (assemble_result self m addr now first_seen p3).risk_level = .Extreme := by
    rw [assemble_result_risk]
    unfold calculate_risk_level
    have hcrit : ((assemble_result self m addr now first_seen p3).flags.any fun f =>
        strContains f "HONEYPOT" || strContains f "WHALE_DOMINATED" ||
          strContains f "LOW_LIQUIDITY") = true :=
      List.any_eq_true.mpr ⟨honeypot_flag, hmem, by decide⟩
    simp [hcrit]
  have hrec : (assemble_result self m addr now first_seen p3).recommendation = .Avoid := by
    rw [assemble_result_rec, hsafe, hrisk]
    unfold make_recommendation
    simp
  exact ⟨hrec, hrisk, hsafe⟩

/-- Concrete outcome of analysing `m_hp` (honeypot, all else unknown, age
zero): the honeypot penalty drives the score to 15 and every safety
derivation to its worst value. -/
def hp_result : AnalysisResult :=
  { token_address := "T"
    score := 15
    is_safe := false
    risk_level := .Extreme
    flags := [unknown_liquidity_flag, honeypot_flag, very_new_flag]
    potential_multiplier := none
    recommendation := .Avoid }

theorem C2_honeypot_forces_avoid_witness :
    analyzeToken cfg0 (some m_hp) "T" 0 0 = some hp_result ∧
      hp_result.recommendation = .Avoid ∧ hp_result.risk_level = .Extreme ∧
      hp_result.is_safe = false := by
  have heval : analyzeToken cfg0 (some m_hp) "T" 0 0 = some hp_result := by
    have h1 : ((0 : Int)).tdiv 3600 < 1 := by decide
    have h2 : strContains unknown_liquidity_flag "HONEYPOT" = false := by decide
    have h3 : strContains unknown_liquidity_flag "WHALE_DOMINATED" = false := by decide
    have h4 : strContains unknown_liquidity_flag "LOW_LIQUIDITY" = false := by decide
    have h5 : strContains unknown_liquidity_flag "UNVERIFIED_CONTRACT" = false := by decide
    have h6 : strContains honeypot_flag "HONEYPOT" = true := by decide
    norm_num [analyzeToken, analyzeWithMetrics, assemble_result,
      analyze_liquidity, analyze_holder_distribution, holder_count_check,
      top_holders_check, analyze_volume, analyze_price_stability,
      analyze_contract_security, sec_verified, sec_honeypot, sec_mintable,
      sec_proxy, analyze_market_timing, calculate_potential_multiplier,
      calculate_risk_level, has_critical_flags, make_recommendation,
      m_hp, cfg0, hp_result, h1, h2, h3, h4, h5, h6]
  exact ⟨heval, C2_honeypot_forces_avoid cfg0 m_hp "T" 0 0 hp_result rfl heval⟩

/-- C9: when both volume24hUsd and liquidityUsd are present the volume
factor divides them with no zero guard, so the whole analysis panics
(returns no result) precisely when a volume is present and the liquidity
is present and zero; under the precondition that liquidity is not a
present zero, the analysis of a snapshot is total. -/
theorem C9_volume_division_by_zero (self : TokenAnalyzer) (m : TokenMetrics)
    (addr : String) (now first_seen : Int) :
    (m.volume_24h_usd.isSome = true → m.liquidity_usd = some 0 →
      analyzeToken self (some m) addr now first_seen = none) ∧
    (m.liquidity_usd ≠ some 0 →
      (analyzeToken self (some m) addr now first_seen).isSome = true) := by
  constructor
  · intro hv hl
    rcases hx : m.volume_24h_usd with _ | v
    · simp [hx] at hv
    · simp [analyzeToken, analyzeWithMetrics, analyze_volume, ratDiv?, hx, hl]
  · intro hl
    rcases hx : m.volume_24h_usd with _ | v
    · simp [analyzeToken, analyzeWithMetrics, analyze_volume, hx]
    · rcases hy : m.liquidity_usd with _ | l
      · simp [analyzeToken, analyzeWithMetrics, analyze_volume, hx, hy]
      · have hlz : l ≠ 0 := by rintro rfl; exact hl hy
        simp [analyzeToken, analyzeWithMetrics, analyze_volume, ratDiv?, hx, hy, hlz]

theorem C9_volume_division_by_zero_witness :
    analyzeToken cfg0 (some m_liq0) "T" 0 0 = none ∧
      (analyzeToken cfg0 (some m72) "T" 604800 0).isSome = true :=
  ⟨(C9_volume_division_by_zero cfg0 m_liq0 "T" 0 0).1 rfl rfl,
    (C9_volume_division_by_zero cfg0 m72 "T" 604800 0).2 (by simp [m72])⟩

/-- C10: every signal the emission path actually produces carries a present
target multiplier: emission requires `score ≥ 75`, which rules out the
`score < 60` branch in which the multiplier is none, so the
`unwrap_or(2)` fallback in the reason text is unreachable for emitted
signals. -/
theorem C10_signal_multiplier_present (self : TokenAnalyzer)
    (metrics? : Option TokenMetrics) (addr symbol name0 : String)
    (now first_seen : Int) (s : TradingSignal)
    (hs : emit_signal self metrics? addr symbol name0 now first_seen = some s) :
    s.target_multiplier.isSome = true := by
  unfold emit_signal at hs
  rcases ha : analyzeToken self metrics? addr now first_seen with _ | r
  · rw [ha] at hs; exact absurd hs (by simp)
  · rw [ha] at hs
    dsimp only at hs
    by_cases hc : r.is_safe = true ∧ 75 ≤ r.score
    · rw [if_pos hc] at hs
      obtain rfl := Option.some.inj hs
      show r.potential_multiplier.isSome = true
      rcases metrics? with _ | m
      · have hcanned : create_insufficient_data_result addr = r := Option.some.inj ha
        have h20 : r.score = 20 := by rw [← hcanned]; rfl
        have := hc.2
        rw [h20] at this
        norm_num at this
      · obtain ⟨p3, hv, rfl⟩ := analyzeWithMetrics_eq_some self m addr now first_seen r ha
        rw [assemble_result_pm]
        unfold calculate_potential_multiplier
        have hge : ¬ ((assemble_result self m addr now first_seen p3).score < 60) := by
          have := hc.2
          linarith
        rw [if_neg hge]
        simp
    · rw [if_neg hc] at hs
      exact absurd hs (by simp)

/-- Concrete outcome of analysing the §8 end-to-end snapshot `m_big` at age
five hours: every factor contributes its maximum, score 144, no flags. -/
def big_result : AnalysisResult :=
  { token_address := "X"
    score := 144
    is_safe := true
    risk_level := .Low
    flags := []
    potential_multiplier := some 100
    recommendation := .Buy }

theorem big_result_eval : analyzeToken cfg0 (some m_big) "X" 18000 0 = some big_result := by
  have h1 : ¬ ((18000 : Int).tdiv 3600 < 1) := by decide
  have h2 : (18000 : Int).tdiv 3600 < 24 := by decide
  norm_num [analyzeToken, analyzeWithMetrics, assemble_result,
    analyze_liquidity, analyze_holder_distribution, holder_count_check,
    top_holders_check, analyze_volume, analyze_price_stability,
    analyze_contract_security, sec_verified, sec_honeypot, sec_mintable,
    sec_proxy, analyze_market_timing, calculate_potential_multiplier,
    calculate_risk_level, has_critical_flags, make_recommendation, ratDiv?,
    m_big, cfg0, big_result, h1, h2]
  all_goals decide

/-- The signal emitted for `m_big` at age five hours. -/
def big_signal : TradingSignal := generate_trading_signal "S" "N" big_result

theorem emit_big_eval :
    emit_signal cfg0 (some m_big) "X" "S" "N" 18000 0 = some big_signal := by
  unfold emit_signal
  rw [big_result_eval]
  dsimp only
  rw [if_pos ⟨rfl, by norm_num [big_result]⟩]
  rfl

theorem C10_signal_multiplier_present_witness :
    emit_signal cfg0 (some m_big) "X" "S" "N" 18000 0 = some big_signal ∧
      big_signal.target_multiplier.isSome = true :=
  ⟨emit_big_eval, C10_signal_multiplier_present cfg0 (some m_big) "X" "S" "N"
    18000 0 big_signal emit_big_eval⟩

theorem ftc_spec (mult entry current invest : ℚ) :
    ∀ (targets : List ℚ) (c : CloseArgs),
      List.Pairwise (· ≤ ·) targets →
      first_target_close mult entry current invest targets = some c →
      ∃ t, t ∈ targets ∧ t ≤ mult ∧ (∀ u ∈ targets, u ≤ mult → t ≤ u) ∧
        c = { exit_price := current
              profit_loss := (current - entry) * invest / entry
              multiplier := mult
              exit_reason := reprD t ++ "x target reached" } := by
  intro targets
  induction targets with
  | nil => intro c _ h; exact absurd h (by simp [first_target_close])
  | cons t ts ih =>
      intro c hp h
      unfold first_target_close at h
      by_cases ht : t ≤ mult
      · rw [if_pos ht] at h
        refine ⟨t, List.mem_cons_self t ts, ht, ?_, (Option.some.inj h).symm⟩
        intro u hu _
        rcases List.mem_cons.mp hu with rfl | hmem
        · exact le_rfl
        · exact (List.pairwise_cons.mp hp).1 u hmem
      · rw [if_neg ht] at h
        obtain ⟨t0, hmem, hle, hmin, hc⟩ := ih c (List.pairwise_cons.mp hp).2 h
        refine ⟨t0, List.mem_cons_of_mem t hmem, hle, ?_, hc⟩
        intro u hu hule
        rcases List.mem_cons.mp hu with rfl | hmem2
        · exact absurd hule ht
        · exact hmin u hmem2 hule

/-- C4: for every open trade whose current price is known, the
profit-taking sweep closes at the least target of an ascending list that
the multiplier currentPrice / entryPrice meets or exceeds, with
profitLoss = (currentPrice − entryPrice) × investmentUsd / entryPrice and
exit reason "(target)x target reached". -/
theorem C4_lowest_target_wins (targets : List ℚ) (m : TokenMetrics)
    (entry_price investment_usd current_price mult : ℚ) (c : CloseArgs)
    (hsort : List.Pairwise (· ≤ ·) targets)
    (hprice : m.price_usd = some current_price)
    (hdiv : ratDiv? current_price entry_price = some mult)
    (hres : check_profit_targets_trade targets (some m) entry_price
      investment_usd = some (some c)) :
    ∃ t, t ∈ targets ∧ t ≤ mult ∧ (∀ u ∈ targets, u ≤ mult → t ≤ u) ∧
      c = { exit_price := current_price
            profit_loss := (current_price - entry_price) * investment_usd / entry_price
            multiplier := mult
            exit_reason := reprD t ++ "x target reached" } := by
  unfold check_profit_targets_trade at hres
  dsimp only at hres
  rw [hprice] at hres
  dsimp only at hres
  rw [hdiv] at hres
  dsimp only at hres
  exact ftc_spec mult entry_price current_price investment_usd targets c hsort
    (Option.some.inj hres)

/-- Closure produced for the claim's concrete scenario: targets [2,5,10],
entry one dollar, current price six dollars, investment 100. -/
def c4close : CloseArgs :=
  { exit_price := 6, profit_loss := 500, multiplier := 6,
    exit_reason := "2x target reached" }

theorem C4_lowest_target_wins_witness :
    check_profit_targets_trade [2, 5, 10] (some m_price6) 1 100 =
        some (some c4close) ∧
      ∃ t, t ∈ [(2 : ℚ), 5, 10] ∧ t ≤ 6 ∧
        (∀ u ∈ [(2 : ℚ), 5, 10], u ≤ 6 → t ≤ u) ∧
        c4close = { exit_price := 6, profit_loss := (6 - 1) * 100 / 1,
                    multiplier := 6,
                    exit_reason := reprD t ++ "x target reached" } := by
  have hres : check_profit_targets_trade [2, 5, 10] (some m_price6) 1 100 =
      some (some c4close) := by
    norm_num [check_profit_targets_trade, m_price6, ratDiv?, first_target_close,
      c4close, reprD]
    all_goals decide
  exact ⟨hres, C4_lowest_target_wins [2, 5, 10] m_price6 1 100 6 6 c4close
    (by norm_num [List.pairwise_cons]) rfl (by norm_num [ratDiv?]) hres⟩

/-- C5: when, in one risk-management sweep, the stop-loss trigger and the
max-hold trigger are both true for a trade with a known current price,
the trade is closed with the time-limit reason: the time-limit check runs
after the stop-loss check and overwrites its reason. -/
theorem C5_time_limit_reason_wins (stop_loss_pct : ℚ)
    (max_hold_secs now entry_time : Int) (m : TokenMetrics)
    (entry_price investment_usd current_price loss_pct : ℚ)
    (hprice : m.price_usd = some current_price)
    (hdiv : ratDiv? (entry_price - current_price) entry_price = some loss_pct)
    (hstop : stop_loss_pct ≤ loss_pct)
    (hhold : max_hold_secs < now - entry_time) :
    check_risk_limits_trade stop_loss_pct max_hold_secs now (some m)
        entry_price entry_time investment_usd =
      some (some { exit_price := current_price
                   profit_loss := (current_price - entry_price) * investment_usd / entry_price
                   multiplier := current_price / entry_price
                   exit_reason := "Max hold time exceeded (" ++
                     toString ((now - entry_time).tdiv 3600) ++ " hours)" }) := by
  have hne : entry_price ≠ 0 := by
    intro h0
    rw [h0] at hdiv
    simp [ratDiv?] at hdiv
  unfold check_risk_limits_trade
  dsimp only
  rw [hprice]
  dsimp only
  rw [hdiv]
  dsimp only
  rw [if_pos hstop, if_pos hhold]
  dsimp only
  simp [ratDiv?, hne]

/-- C6: a trade past its max hold time whose current price is unavailable
(no snapshot, or a snapshot without a price) is left open by the
risk-management sweep: no closure is produced. -/
theorem C6_no_price_no_close (stop_loss_pct : ℚ)
    (max_hold_secs now entry_time : Int) (metrics? : Option TokenMetrics)
    (entry_price investment_usd : ℚ)
    (hnoprice : metrics? = none ∨ ∃ m, metrics? = some m ∧ m.price_usd = none)
    (hhold : max_hold_secs < now - entry_time) :
    check_risk_limits_trade stop_loss_pct max_hold_secs now metrics?
        entry_price entry_time investment_usd = some none := by
  rcases hnoprice with rfl | ⟨m, rfl, hm⟩
  · simp [check_risk_limits_trade, if_pos hhold]
  · simp [check_risk_limits_trade, hm, if_pos hhold]

theorem C6_no_price_no_close_witness :
    ((86400 : Int) < 200000 - 0) ∧
      check_risk_limits_trade (1/2) 86400 200000 none 1 0 100 = some none :=
  ⟨by decide, C6_no_price_no_close (1/2) 86400 200000 0 none 1 100
    (Or.inl rfl) (by decide)⟩

/-- Snapshot whose only known field is a current price of a quarter dollar. -/
def m_quarter : TokenMetrics :=
  { price_usd := some (1/4), liquidity_usd := none, volume_24h_usd := none
    holder_count := none, top_10_holders_percentage := none
    is_honeypot := none, is_mintable := none, has_proxy := none
    contract_verified := none }

theorem C5_time_limit_reason_wins_witness :
    ratDiv? (1 - 1/4) 1 = some (3/4) ∧ (1 : ℚ)/2 ≤ 3/4 ∧
      ((86400 : Int) < 200000 - 0) ∧
      check_risk_limits_trade (1/2) 86400 200000 (some m_quarter) 1 0 100 =
        some (some { exit_price := 1/4
                     profit_loss := (1/4 - 1) * 100 / 1
                     multiplier := (1 : ℚ)/4 / 1
                     exit_reason := "Max hold time exceeded (" ++
                       toString ((200000 - 0 : Int).tdiv 3600) ++ " hours)" }) :=
  ⟨by norm_num [ratDiv?], by norm_num, by decide,
    C5_time_limit_reason_wins (1/2) 86400 200000 0 m_quarter 1 100 (1/4) (3/4)
      rfl (by norm_num [ratDiv?]) (by norm_num) (by decide)⟩

/-- Market-timing output as a function of the age bucket alone. -/
def timing_of_bucket (b : Nat) (fl : List String) : ℚ × List String :=
  match b with
  | 0 => (8, fl ++ [very_new_flag])
  | 1 => (10, fl)
  | 2 => (6, fl)
  | _ => (3, fl)

theorem timing_eq_bucket (now first_seen : Int) (fl : List String) :
    analyze_market_timing now first_seen fl =
      timing_of_bucket (timing_bucket (now - first_seen)) fl := by
  unfold analyze_market_timing timing_bucket timing_of_bucket
  dsimp only
  split_ifs <;> rfl

/-- C8 (amended): scoring is a pure function of (token, metrics, clock
reading): the clock enters only through the age bucket of the
market-timing factor, so two runs whose clock readings put the token in
the same age bucket produce identical results.  (The clock reading
itself is obtained inside `analyze_market_timing` via `Utc::now()`, not
injected, so runs at different times may differ — see the
counterexample.) -/
theorem C8_scoring_pure_given_clock (self : TokenAnalyzer)
    (metrics? : Option TokenMetrics) (addr : String)
    (now1 now2 first_seen : Int)
    (h : timing_bucket (now1 - first_seen) = timing_bucket (now2 - first_seen)) :
    analyzeToken self metrics? addr now1 first_seen =
      analyzeToken self metrics? addr now2 first_seen := by
  rcases metrics? with _ | m
  · rfl
  · unfold analyzeToken
    dsimp only
    unfold analyzeWithMetrics
    congr 1
    funext p3
    unfold assemble_result
    dsimp only
    rw [timing_eq_bucket, timing_eq_bucket, h]

theorem C8_scoring_pure_given_clock_witness :
    timing_bucket (18000 - 0) = timing_bucket (7200 - 0) ∧
      analyzeToken cfg0 (some m_big) "X" 18000 0 =
        analyzeToken cfg0 (some m_big) "X" 7200 0 :=
  ⟨by decide,
    C8_scoring_pure_given_clock cfg0 (some m_big) "X" 18000 7200 0 (by decide)⟩

/-- C8 counterexample: the same (token, metrics) pair analysed at clock
reading 0 (age zero: VERY_NEW, +8) and at clock reading 18000 (age five
hours: +10) produces different results, so scoring is not a function of
(token, metrics) alone. -/
theorem C8_clock_dependence :
    analyzeToken cfg0 (some m_big) "X" 0 0 ≠
      analyzeToken cfg0 (some m_big) "X" 18000 0 := by
  intro heq
  have h1 : (analyzeToken cfg0 (some m_big) "X" 0 0).map (fun r => r.score) =
      some 142 := by
    have ht : ((0 : Int)).tdiv 3600 < 1 := by decide
    norm_num [analyzeToken, analyzeWithMetrics, assemble_result,
      analyze_liquidity, analyze_holder_distribution, holder_count_check,
      top_holders_check, analyze_volume, analyze_price_stability,
      analyze_contract_security, sec_verified, sec_honeypot, sec_mintable,
      sec_proxy, analyze_market_timing, ratDiv?, m_big, cfg0, ht]
  rw [heq, big_result_eval] at h1
  simp [big_result] at h1

theorem liq_score_le (self : TokenAnalyzer) (m : TokenMetrics)
    (fl : List String) : (analyze_liquidity self m fl).1 ≤ 25 := by
  unfold analyze_liquidity
  rcases m.liquidity_usd with _ | l
  · norm_num
  · dsimp only
    split_ifs <;> norm_num

theorem hcc_score_le (self : TokenAnalyzer) (m : TokenMetrics)
    (fl : List String) : (holder_count_check self m fl).1 ≤ 10 := by
  unfold holder_count_check
  rcases m.holder_count with _ | n
  · norm_num
  · dsimp only
    split_ifs <;> norm_num

theorem thc_score_le (m : TokenMetrics) (fl : List String) :
    (top_holders_check m fl).1 ≤ 10 := by
  unfold top_holders_check
  rcases m.top_10_holders_percentage with _ | pct
  · norm_num
  · dsimp only
    split_ifs <;> norm_num

theorem hd_score_le (self : TokenAnalyzer) (m : TokenMetrics)
    (fl : List String) : (analyze_holder_distribution self m fl).1 ≤ 20 := by
  unfold analyze_holder_distribution
  dsimp only
  have h1 := hcc_score_le self m fl
  have h2 := thc_score_le m (holder_count_check self m fl).2
  linarith

theorem sv_score_le (m : TokenMetrics) (fl : List String) :
    (sec_verified m fl).1 ≤ 8 := by
  unfold sec_verified
  rcases m.contract_verified with _ | b
  · norm_num
  · dsimp only
    split_ifs <;> norm_num

theorem sh_score_le (m : TokenMetrics) (fl : List String) :
    (sec_honeypot m fl).1 ≤ 5 := by
  unfold sec_honeypot
  rcases m.is_honeypot with _ | b
  · norm_num
  · dsimp only
    split_ifs <;> norm_num

theorem sm_score_le (m : TokenMetrics) (fl : List String) :
    (sec_mintable m fl).1 ≤ 2 := by
  unfold sec_mintable
  rcases m.is_mintable with _ | b
  · norm_num
  · dsimp only
    split_ifs <;> norm_num

theorem sp_score_le (m : TokenMetrics) (fl : List String) :
    (sec_proxy m fl).1 ≤ 2 := by
  unfold sec_proxy
  rcases m.has_proxy with _ | b
  · norm_num
  · dsimp only
    split_ifs <;> norm_num

theorem sec_score_le (m : TokenMetrics) (fl : List String) :
    (analyze_contract_security m fl).1 ≤ 17 := by
  unfold analyze_contract_security
  dsimp only
  have h1 := sv_score_le m fl
  have h2 := sh_score_le m (sec_verified m fl).2
  have h3 := sm_score_le m (sec_honeypot m (sec_verified m fl).2).2
  have h4 := sp_score_le m (sec_mintable m (sec_honeypot m (sec_verified m fl).2).2).2
  linarith

theorem vol_score_le (m : TokenMetrics) (fl : List String) (p : ℚ × List String)
    (h : analyze_volume m fl = some p) : p.1 ≤ 15 := by
  unfold analyze_volume at h
  rcases hx : m.volume_24h_usd with _ | v
  · rw [hx] at h
    dsimp only at h
    obtain rfl := Option.some.inj h
    norm_num
  · rw [hx] at h
    dsimp only at h
    rcases hy : m.liquidity_usd with _ | l
    · rw [hy] at h
      dsimp only at h
      obtain rfl := Option.some.inj h
      norm_num
    · rw [hy] at h
      dsimp only at h
      rcases hd : ratDiv? v l with _ | vr
      · rw [hd] at h
        exact absurd h (by simp)
      · rw [hd] at h
        dsimp only at h
        split_ifs at h <;> obtain rfl := Option.some.inj h <;> norm_num

theorem timing_score_le (now first_seen : Int) (fl : List String) :
    (analyze_market_timing now first_seen fl).1 ≤ 10 := by
  unfold analyze_market_timing
  dsimp only
  split_ifs <;> norm_num

theorem score_le_144 (self : TokenAnalyzer) (m : TokenMetrics) (addr : String)
    (now first_seen : Int) (r : AnalysisResult)
    (h : analyzeWithMetrics self m addr now first_seen = some r) :
    r.score ≤ 144 := by
  obtain ⟨p3, hv, rfl⟩ := analyzeWithMetrics_eq_some self m addr now first_seen r h
  rw [assemble_result_score]
  have h1 := liq_score_le self m []
  have h2 := hd_score_le self m (analyze_liquidity self m []).2
  have h3 := vol_score_le m _ p3 hv
  have h4 : analyze_price_stability = 7 := rfl
  have h5 := sec_score_le m p3.2
  have h6 := timing_score_le now first_seen (analyze_contract_security m p3.2).2
  linarith

/-- C3 (amended): a signal is emitted exactly when isSafe holds and
score ≥ 75; every emitted signal is a Buy signal with
confidence = score / 100, and that confidence lies in [3/4, 36/25] for
every achievable score — the claimed upper bound 1 is wrong, since safe
scores reach 144 (confidence 1.44). -/
theorem C3_signal_confidence (self : TokenAnalyzer)
    (metrics? : Option TokenMetrics) (addr symbol name0 : String)
    (now first_seen : Int) :
    (∀ s, emit_signal self metrics? addr symbol name0 now first_seen = some s →
      s.signal_type = .Buy ∧ 3/4 ≤ s.confidence ∧ s.confidence ≤ 36/25) ∧
    (∀ r, analyzeToken self metrics? addr now first_seen = some r →
      ((emit_signal self metrics? addr symbol name0 now first_seen).isSome = true ↔
        (r.is_safe = true ∧ 75 ≤ r.score)) ∧
      ∀ s, emit_signal self metrics? addr symbol name0 now first_seen = some s →
        s.confidence = r.score / 100) := by
  constructor
  · intro s hs
    unfold emit_signal at hs
    rcases ha : analyzeToken self metrics? addr now first_seen with _ | r
    · rw [ha] at hs
      exact absurd hs (by simp)
    · rw [ha] at hs
      dsimp only at hs
      by_cases hc : r.is_safe = true ∧ 75 ≤ r.score
      · rw [if_pos hc] at hs
        obtain rfl := Option.some.inj hs
        refine ⟨rfl, ?_, ?_⟩
        · show (3 : ℚ)/4 ≤ r.score / 100
          have := hc.2
          linarith
        · show r.score / 100 ≤ 36/25
          rcases metrics? with _ | m
          · have hcanned : create_insufficient_data_result addr = r :=
              Option.some.inj ha
            have hfalse : r.is_safe = false := by rw [← hcanned]; rfl
            rw [hc.1] at hfalse
            exact absurd hfalse (by simp)
          · have h144 := score_le_144 self m addr now first_seen r ha
            linarith
      · rw [if_neg hc] at hs
        exact absurd hs (by simp)
  · intro r hr
    constructor
    · unfold emit_signal
      rw [hr]
      dsimp only
      by_cases hc : r.is_safe = true ∧ 75 ≤ r.score
      · rw [if_pos hc]
        simp [hc]
      · rw [if_neg hc]
        simp [hc]
    · intro s hs
      unfold emit_signal at hs
      rw [hr] at hs
      dsimp only at hs
      by_cases hc : r.is_safe = true ∧ 75 ≤ r.score
      · rw [if_pos hc] at hs
        obtain rfl := Option.some.inj hs
        rfl
      · rw [if_neg hc] at hs
        exact absurd hs (by simp)

/-- C3 counterexample: the §8 end-to-end snapshot yields an emitted signal
whose confidence is 36/25 = 1.44, outside the claimed interval [0,1]. -/
theorem C3_confidence_exceeds_one :
    (emit_signal cfg0 (some m_big) "X" "S" "N" 18000 0).map
        (fun s => s.confidence) = some (36/25) ∧ ¬ ((36 : ℚ)/25 ≤ 1) := by
  constructor
  · rw [emit_big_eval]
    simp [big_signal, generate_trading_signal, big_result]
    norm_num
  · norm_num

theorem C3_signal_confidence_witness :
    emit_signal cfg0 (some m_big) "X" "S" "N" 18000 0 = some big_signal ∧
      big_signal.signal_type = .Buy ∧ 3/4 ≤ big_signal.confidence ∧
      big_signal.confidence ≤ 36/25 :=
  ⟨emit_big_eval,
    (C3_signal_confidence cfg0 (some m_big) "X" "S" "N" 18000 0).1 big_signal
      emit_big_eval⟩

end SniperBot
